import Mathlib

/-!
Shallow embedding of the bootstrapped evaluation harness of `aiai_eval`
(`src/aiai_eval/task.py` and `src/aiai_eval/config.py`), together with a
model — written from the specification — of the score aggregator whose
source module (`scoring.py`) is not part of the sources at hand.

External collaborators (the Hugging Face model/dataset/metric backends,
the carbon tracker, spaCy, torch) are represented by oracle parameters:
functions supplying the outcome of each external call.  The control flow
of `task.py` itself — filtering, bootstrap resampling, the per-iteration
try/except, the outer iteration loop, metric zipping, dict updates — is
translated directly from the source.
-/

namespace AiaiEval

/-- Mirrors `config.py` `MetricConfig` (the fields read by the task runner;
`compute_kwargs` is consumed opaquely by the external metric backend and is
absorbed into the metric-computation oracle). -/
structure MetricConfig where
  name : String
  pretty_name : String
  huggingface_id : String
  results_key : String
deriving DecidableEq

/-- Mirrors `config.py` `Label`: a label name with its synonyms. -/
structure Label where
  name : String
  synonyms : List String
deriving DecidableEq

/-- Mirrors `config.py` `DatasetTask`. -/
structure DatasetTask where
  name : String
  supertask : String
  metrics : List MetricConfig
  labels : List Label
deriving DecidableEq

/-- Mirrors `config.py` `DatasetConfig` (the dataclass fields; the computed
properties `id2label`, `label2id`, `num_labels`, `label_synonyms` are the
definitions below). -/
structure DatasetConfig where
  name : String
  pretty_name : String
  huggingface_id : String
  task : DatasetTask
deriving DecidableEq

/-- Mirrors `config.py` `DatasetConfig.id2label`:
`[label.name for label in self.task.labels]`. -/
def DatasetConfig.id2label (cfg : DatasetConfig) : List String :=
  cfg.task.labels.map (fun label => label.name)

/-- Entry list underlying the dict comprehension of
`config.py` `DatasetConfig.label2id`:
`{syn: idx for idx, label in enumerate(self.task.labels)
           for syn in [label.name] + label.synonyms}`,
in Python's left-to-right generation order. -/
def label2idEntries (labels : List Label) : List (String × Nat) :=
  (labels.enum.map
    (fun p => (p.2.name :: p.2.synonyms).map (fun syn => (syn, p.1)))).flatten

/-- Python dict semantics for a list of key/value entries: when the same key
is generated twice, the later entry overwrites the earlier one, so lookup
returns the value of the last entry with the given key. -/
def dictLookupLast (entries : List (String × Nat)) (key : String) : Option Nat :=
  (entries.reverse.find? (fun p => p.1 == key)).map Prod.snd

/-- Mirrors `config.py` `DatasetConfig.label2id` as a lookup function: the
dict built by the comprehension, queried at `key`. -/
def DatasetConfig.label2id (cfg : DatasetConfig) (key : String) : Option Nat :=
  dictLookupLast (label2idEntries cfg.task.labels) key

/-- Mirrors `config.py` `DatasetConfig.num_labels`. -/
def DatasetConfig.num_labels (cfg : DatasetConfig) : Nat :=
  cfg.task.labels.length

/-- Mirrors `config.py` `DatasetConfig.label_synonyms`. -/
def DatasetConfig.label_synonyms (cfg : DatasetConfig) : List (List String) :=
  cfg.task.labels.map (fun label => label.name :: label.synonyms)

/-- Mirrors `config.py` `EvaluationConfig` (dataclass of run-wide flags; the
`use_auth_token : Union[bool, str]` field is modelled as a sum).  The
`testing` flag is the one driving the iteration count and dataset
truncation in `task.py`. -/
structure EvaluationConfig where
  raise_error_on_invalid_model : Bool
  cache_dir : String
  use_auth_token : Sum Bool String
  progress_bar : Bool
  save_results : Bool
  verbose : Bool
  testing : Bool := false
deriving DecidableEq

/-- Mirrors the `TaskConfig` dataclass consumed by `task.py` (its defining
module is not among the sources at hand; the fields are exactly those read
in `task.py` and exercised by `tests/test_config.py`). -/
structure TaskConfig where
  name : String
  huggingface_id : String
  huggingface_subset : Option String
  supertask : String
  metrics : List MetricConfig
  labels : List Label
  feature_column_names : List String
  label_column_name : String
  test_name : String
deriving DecidableEq

/-- Python exception values arising in `task.py`.  `runtimeError`,
`valueError`, `indexError` and `keyError` are the builtin classes; the
rest are the `aiai_eval.exceptions` classes raised by `task.py`.
Modelled from the spec: the `exceptions` module is not among the sources
at hand; per the spec and `tests/test_exceptions.py` its classes are
plain `Exception` subclasses, so they are distinct from (and in
particular never caught as) the builtin transient classes. -/
inductive PyErr where
  | runtimeError (msg : String)
  | valueError (msg : String)
  | indexError (msg : String)
  | keyError (msg : String)
  | invalidEvaluation (msg : String)
  | invalidFramework (framework : String)
  | modelNotTrainedForTask (task framework : String)
  | mpsFallbackNotEnabled
  | preprocessingFailed
  | wrongFeatureColumnName (col : String)
deriving DecidableEq

/-- Whether an exception value is an instance of one of the classes named in
the handler `except (RuntimeError, ValueError, IndexError)` of the
single-iteration functions in `task.py`. -/
def PyErr.isTransient : PyErr → Bool
  | .runtimeError _ => true
  | .valueError _ => true
  | .indexError _ => true
  | _ => false

/-- Python `str(e)` for the exception values (the builtin classes carry
their message; for the custom classes the message texts follow
`tests/test_exceptions.py` where shown, and are otherwise opaque). -/
def PyErr.str : PyErr → String
  | .runtimeError msg => msg
  | .valueError msg => msg
  | .indexError msg => msg
  | .keyError msg => msg
  | .invalidEvaluation msg => msg
  | .invalidFramework fw => "The framework " ++ fw ++ " is not supported."
  | .modelNotTrainedForTask task fw =>
      "The model is not trained for the task " ++ task ++ " with framework " ++ fw ++ "."
  | .mpsFallbackNotEnabled => "PYTORCH_ENABLE_MPS_FALLBACK is not enabled."
  | .preprocessingFailed => "Preprocessing of the dataset could not be done."
  | .wrongFeatureColumnName col =>
      "The feature column name " ++ col ++ " is not in the dataset."

/-- Whether the character list `pat` is an initial segment of `s`. -/
def charsStartWith : (s pat : List Char) → Bool
  | _, [] => true
  | [], _ :: _ => false
  | c :: cs, d :: ds => c == d && charsStartWith cs ds

/-- Whether the character list `pat` occurs contiguously in `s`. -/
def charsContain (pat : List Char) : (s : List Char) → Bool
  | [] => charsStartWith [] pat
  | c :: cs => charsStartWith (c :: cs) pat || charsContain pat cs

/-- Python substring test `pat in s`, over the strings' characters. -/
def strContains (s pat : String) : Bool :=
  charsContain pat.data s.data

/-- A Hugging Face `Dataset`: a column schema (its features) and an ordered
list of rows, each row an assignment of string values to column names.
Every row carries exactly the schema's columns, so looking a column up in a
record raises `KeyError` precisely when the column is absent from the
schema. -/
structure Dataset where
  schema : List String
  rows : List (List (String × String))
deriving DecidableEq

/-- Python `record[col]` on a record of a dataset (total here; the
`KeyError` case is handled at the dataset level through the schema). -/
def recordGet (r : List (String × String)) (col : String) : String :=
  ((r.find? (fun p => p.1 == col)).map Prod.snd).getD ""

/-- Mirrors one pass of the filtering loop of `Task.evaluate`
(task.py lines 108-113):
`dataset.filter(lambda record: len(record[feat_column]) > 0)`, which
raises `KeyError` when `feat_column` is not one of the dataset's columns. -/
def datasetFilterColumn (ds : Dataset) (col : String) : Except PyErr Dataset :=
  if col ∈ ds.schema then
    .ok ⟨ds.schema, ds.rows.filter (fun r => 0 < (recordGet r col).length)⟩
  else
    .error (.keyError col)

/-- Mirrors the whole filtering loop of `Task.evaluate`
(task.py lines 108-113): for each configured feature column in order, drop
the records whose value in that column is empty; a `KeyError` from the
filter is turned into `WrongFeatureColumnName(feat_column)`. -/
def filterEmptyExamples (cols : List String) (ds : Dataset) : Except PyErr Dataset :=
  match cols with
  | [] => .ok ds
  | col :: rest =>
    match datasetFilterColumn ds col with
    | .ok ds' => filterEmptyExamples rest ds'
    | .error _ => .error (.wrongFeatureColumnName col)

/-- Mirrors `num_iter = 10 if not self.evaluation_config.testing else 2`
(task.py line 116). -/
def numIter (ecfg : EvaluationConfig) : Nat :=
  if ¬ ecfg.testing then 10 else 2

/-- Mirrors `dataset.select(range(4))` (task.py lines 178-179 and 436-437):
the first four records of the dataset; selecting out-of-range indices
raises `IndexError` in the `datasets` library. -/
def datasetSelectRange4 (ds : Dataset) : Except PyErr Dataset :=
  if 4 ≤ ds.rows.length then .ok ⟨ds.schema, ds.rows.take 4⟩
  else .error (.indexError "Index out of range")

/-- Model of the seeded `np.random.Generator` handed to the evaluation
(`enforce_reproducibility`): a pure deterministic stream of 64-bit words.
The concrete word function is a linear-congruential stand-in for the
external PCG64 bit generator; the embedding relies only on the stream
being a deterministic function of the state and on the reduction of each
word into the requested range. -/
structure Generator where
  state : Nat
deriving DecidableEq

/-- Advances the generator by one 64-bit word. -/
def Generator.next (g : Generator) : Nat × Generator :=
  let s := (6364136223846793005 * g.state + 1442695040888963407) % 18446744073709551616
  (s, ⟨s⟩)

/-- Model of `rng.integers(lo, hi, size)`: draws `size` values uniformly
with replacement from `[lo, hi)`, advancing the generator once per draw. -/
def Generator.integers (g : Generator) (lo hi : Nat) : (size : Nat) → List Nat × Generator
  | 0 => ([], g)
  | size + 1 =>
    let (w, g') := g.next
    let v := lo + w % (hi - lo)
    let (rest, g'') := g'.integers lo hi size
    (v :: rest, g'')

/-- Index arrays drawn by the bootstrap list comprehension (task.py
lines 182-185 and 440-443): for each of `n` iterations, one call
`rng.integers(0, len, len)`, with the generator state threaded through. -/
def bootstrapIndexLists (g : Generator) (len : Nat) : (n : Nat) → List (List Nat) × Generator
  | 0 => ([], g)
  | n + 1 =>
    let (idxs, g') := g.integers 0 len len
    let (rest, g'') := bootstrapIndexLists g' len n
    (idxs :: rest, g'')

/-- Mirrors `Dataset.from_dict(dataset[idxs])`: the resampled dataset whose
`i`-th row is row `idxs[i]` of `ds` (the indices produced by the bootstrap
draw are always in range). -/
def datasetSelectRows (ds : Dataset) (idxs : List Nat) : Dataset :=
  ⟨ds.schema, idxs.map (fun i => ds.rows.getD i [])⟩

/-- Mirrors the bootstrapped-datasets list comprehension (task.py
lines 182-185 and 440-443):
`[Dataset.from_dict(dataset[rng.integers(0, len(dataset), len(dataset))])
  for _ in range(num_iter)]`. -/
def bootstrappedDatasets (ds : Dataset) (g : Generator) (n : Nat) :
    List Dataset × Generator :=
  let (lists, g') := bootstrapIndexLists g ds.rows.length n
  (lists.map (datasetSelectRows ds), g')

/-- A `(predictions, labels)` pair as prepared by
`_prepare_predictions_and_labels`. -/
abbrev PredLabelPair : Type := List Int × List Int

/-- A per-iteration score record: the Python dict mapping metric names to
scalar scores, in insertion order (scalar scores are modelled as
rationals). -/
abbrev Scores : Type := List (String × ℚ)

/-- Python dict insertion `d[k] = v` on an insertion-ordered record: an
existing key keeps its position and gets the new value, a new key is
appended. -/
def dictInsert (d : Scores) (k : String) (v : ℚ) : Scores :=
  if d.any (fun p => p.1 == k) then
    d.map (fun p => if p.1 == k then (k, v) else p)
  else
    d ++ [(k, v)]

/-- Python dict lookup `d.get(k)` on an insertion-ordered record. -/
def dictGet {α : Type} (d : List (String × α)) (k : String) : Option α :=
  (d.find? (fun p => p.1 == k)).map Prod.snd

/-- Outcome of one external metric computation
`metric.compute(predictions=..., references=..., **kwargs)[results_key]`:
an exception, `None` (in which case `_compute_metrics` records nothing),
or the scalar score. -/
def MetricOracle : Type :=
  MetricConfig → PredLabelPair → Except PyErr (Option ℚ)

/-- Recursion underlying `Task._compute_metrics` (task.py lines 616-655):
walk `zip(self.task_config.metrics, predictions_and_labels)` in order,
computing each metric on its own pair and inserting the non-`None` results
into the results dict. -/
def computeMetricsGo (computeFn : MetricOracle) :
    List (MetricConfig × PredLabelPair) → Scores → Except PyErr Scores
  | [], acc => .ok acc
  | (mcfg, pair) :: rest, acc =>
    match computeFn mcfg pair with
    | .error e => .error e
    | .ok none => computeMetricsGo computeFn rest acc
    | .ok (some v) => computeMetricsGo computeFn rest (dictInsert acc mcfg.name v)

/-- Mirrors `Task._compute_metrics` (task.py lines 616-655): metric `i` is
computed on pair `i` of `predictions_and_labels`, via the zip. -/
def computeMetrics (metrics : List MetricConfig) (pairs : List PredLabelPair)
    (computeFn : MetricOracle) : Except PyErr Scores :=
  computeMetricsGo computeFn (metrics.zip pairs) []

/-- Mirrors the replication step of the single-iteration functions
(task.py lines 352-359 and 574-581): when the prepared list holds exactly
one pair and more than one metric is configured,
`prepared_predictions_and_labels *= len(self.task_config.metrics)`;
otherwise the list is left unchanged. -/
def replicatePairs (pairs : List PredLabelPair) (numMetrics : Nat) :
    List PredLabelPair :=
  if pairs.length = 1 ∧ 1 < numMetrics then
    (List.replicate numMetrics pairs).flatten
  else
    pairs

/-- Oracle for the external effects of one bootstrap iteration: the outcome
of the inference phase (`load_model` through collecting the predictions),
the outcome of the task-specific `_prepare_predictions_and_labels`, the
verdict of the task-specific `_check_if_model_is_trained_for_task` on the
iteration's predictions, and the metric backend. -/
structure IterEffects where
  inference : Except PyErr (List Int)
  prepared : Except PyErr (List PredLabelPair)
  trained : Bool
  computeFn : MetricOracle

/-- How a single iteration terminates, as seen by the outer loop:
`success` — the try block returned a score dict; `failure` — a caught
transient error was returned as a value; `raised` — an exception escaped
the iteration (either re-raised by the handler or never caught). -/
inductive IterOutcome where
  | success (scores : Scores)
  | failure (e : PyErr)
  | raised (e : PyErr)
deriving DecidableEq

/-- Result of one single-iteration call, together with whether the
explicit resource release of the handler (`del model`, `del model_dict`,
`clear_memory()`) was executed before terminating. -/
structure IterResult where
  outcome : IterOutcome
  modelReleased : Bool
deriving DecidableEq

/-- Body of the `try` block of
`Task._evaluate_pytorch_jax_single_iteration` (task.py lines 282-384):
inference, then `_prepare_predictions_and_labels`, then the singleton
replication, then — on iteration 0 only — the trained-for-task check
(raising `ModelNotTrainedForTask` when it fails), then
`_compute_metrics`.  Carbon-emission bookkeeping is excluded as an
external collaborator. -/
def iterTryBodyPytorch (tc : TaskConfig) (fw : String) (idx : Nat)
    (eff : IterEffects) : Except PyErr Scores := do
  let _preds ← eff.inference
  let pairs0 ← eff.prepared
  let pairs := replicatePairs pairs0 tc.metrics.length
  if idx = 0 ∧ eff.trained = false then
    throw (.modelNotTrainedForTask tc.name fw)
  computeMetrics tc.metrics pairs eff.computeFn

/-- Body of the `try` block of `Task._evaluate_spacy_single_iteration`
(task.py lines 531-596): inference, then — on iteration 0 only — the
trained-for-task check, then `_prepare_predictions_and_labels`, then the
singleton replication, then `_compute_metrics`. -/
def iterTryBodySpacy (tc : TaskConfig) (fw : String) (idx : Nat)
    (eff : IterEffects) : Except PyErr Scores := do
  let _preds ← eff.inference
  if idx = 0 ∧ eff.trained = false then
    throw (.modelNotTrainedForTask tc.name fw)
  let pairs0 ← eff.prepared
  let pairs := replicatePairs pairs0 tc.metrics.length
  computeMetrics tc.metrics pairs eff.computeFn

/-- Mirrors the `except (RuntimeError, ValueError, IndexError)` handler of
both single-iteration functions (task.py lines 386-402 and 598-614): a
caught error whose message mentions `PYTORCH_ENABLE_MPS_FALLBACK` makes
the handler raise `MPSFallbackNotEnabled` at once — before the `del
model` / `del model_dict` / `clear_memory()` lines run; any other caught
error is returned as a value after that explicit release; exceptions of
other classes are never caught and propagate with no release. -/
def handleIteration (body : Except PyErr Scores) : IterResult :=
  match body with
  | .ok scores => ⟨.success scores, false⟩
  | .error e =>
    if e.isTransient then
      if strContains e.str "PYTORCH_ENABLE_MPS_FALLBACK" then
        ⟨.raised .mpsFallbackNotEnabled, false⟩
      else
        ⟨.failure e, true⟩
    else
      ⟨.raised e, false⟩

/-- Mirrors `Task._evaluate_pytorch_jax_single_iteration` (task.py
lines 255-402). -/
def singleIterationPytorch (tc : TaskConfig) (fw : String) (idx : Nat)
    (eff : IterEffects) : IterResult :=
  handleIteration (iterTryBodyPytorch tc fw idx eff)

/-- Mirrors `Task._evaluate_spacy_single_iteration` (task.py
lines 507-614). -/
def singleIterationSpacy (tc : TaskConfig) (fw : String) (idx : Nat)
    (eff : IterEffects) : IterResult :=
  handleIteration (iterTryBodySpacy tc fw idx eff)

/-- Message of the `InvalidEvaluation` raised by the outer loop when an
iteration returns an exception value (task.py lines 229-233 and
481-485). -/
def invalidEvalMsg (idx : Nat) (e : PyErr) : String :=
  "An unknown error occurred during the evaluation of the " ++ toString idx ++
    " iteration. The error message returned was: " ++ e.str

/-- Mirrors the outer iteration loop of `Task._evaluate_pytorch_jax` and
`Task._evaluate_spacy` (task.py lines 212-235 and 466-487), which is
textually identical in the two: for each iteration index, run the single
iteration inside `while True`; a dict result breaks out of the `while`
and is appended to `scores`; any other result immediately raises
`InvalidEvaluation` (so the `while` body executes exactly once per
index).  Returns the list of iteration indices that actually ran
alongside the outcome: the collected score list, or the exception that
aborted the evaluation. -/
def iterationLoop (single : Nat → IterResult) :
    (idxs : List Nat) → List Nat × Except PyErr (List Scores)
  | [] => ([], .ok [])
  | idx :: rest =>
    match (single idx).outcome with
    | .success scores =>
      let (trace, res) := iterationLoop single rest
      (idx :: trace,
        match res with
        | .ok l => .ok (scores :: l)
        | .error e => .error e)
    | .failure e => ([idx], .error (.invalidEvaluation (invalidEvalMsg idx e)))
    | .raised e => ([idx], .error e)

/-- Mirrors the preprocessing step of the two framework paths (task.py
lines 188-201 and 446-458): `_preprocess_data` (an external, task-specific
operation, here an oracle) is applied to every bootstrapped dataset; a
`ValueError` from it is replaced by `PreprocessingFailed`, other
exceptions propagate. -/
def preprocessAll (pre : Dataset → Except PyErr Dataset) (boots : List Dataset) :
    Except PyErr (List Dataset) :=
  match boots.mapM pre with
  | .ok l => .ok l
  | .error (.valueError _) => .error .preprocessingFailed
  | .error e => .error e

deriving instance DecidableEq for Except

/-- Observable outcome of a whole `Task.evaluate` run: which iteration
indices ran, the bootstrapped datasets that were drawn, and either the
per-iteration score list handed to `log_scores` or the exception that
aborted the evaluation. -/
structure EvalOutcome where
  trace : List Nat
  bootstrapped : List Dataset
  result : Except PyErr (List Scores)
deriving DecidableEq

/-- Mirrors the shared tail of `Task._evaluate_pytorch_jax` and
`Task._evaluate_spacy` (task.py lines 177-235 / 435-487) after the model
has been loaded: truncate the dataset to its first four records when
testing, draw the bootstrapped datasets, preprocess them, and run the
iteration loop with the given single-iteration function. -/
def evaluateFramework (ecfg : EvaluationConfig) (ds : Dataset) (g : Generator)
    (pre : Dataset → Except PyErr Dataset) (single : Nat → IterResult) :
    EvalOutcome :=
  match if ecfg.testing then datasetSelectRange4 ds else .ok ds with
  | .error e => ⟨[], [], .error e⟩
  | .ok ds' =>
    let boots := (bootstrappedDatasets ds' g (numIter ecfg)).1
    match preprocessAll pre boots with
    | .error e => ⟨[], boots, .error e⟩
    | .ok _prepared =>
      let (trace, res) := iterationLoop single (List.range (numIter ecfg))
      ⟨trace, boots, res⟩

/-- Mirrors `Task.evaluate` (task.py lines 67-137), with the external
steps (model-config fetch, model loading, carbon tracker, dataset
loading) supplied by the caller: filter out records with empty feature
columns (raising `WrongFeatureColumnName` when a configured column is
absent), fix the iteration count from the testing flag, and dispatch on
the model framework — `pytorch`/`jax` and `spacy` share the loop but use
their own single-iteration function; any other framework raises
`InvalidFramework`.  The `result` field carries the score list that
`Task.evaluate` passes on to `log_scores` for aggregation. -/
def evaluate (ecfg : EvaluationConfig) (tc : TaskConfig) (fw : String)
    (ds : Dataset) (g : Generator) (pre : Dataset → Except PyErr Dataset)
    (effs : Nat → IterEffects) : EvalOutcome :=
  match filterEmptyExamples tc.feature_column_names ds with
  | .error e => ⟨[], [], .error e⟩
  | .ok ds1 =>
    if fw = "pytorch" ∨ fw = "jax" then
      evaluateFramework ecfg ds1 g pre
        (fun idx => singleIterationPytorch tc fw idx (effs idx))
    else if fw = "spacy" then
      evaluateFramework ecfg ds1 g pre
        (fun idx => singleIterationSpacy tc fw idx (effs idx))
    else
      ⟨[], [], .error (.invalidFramework fw)⟩

/-- Modelled from the spec: arithmetic mean of the per-iteration scores of
one metric, computed by the score aggregator of the `scoring` module
(absent from the sources at hand); spec §4.2 "For each metric, compute
arithmetic mean across iterations". -/
def scoreMean (xs : List ℚ) : ℚ :=
  if xs.length = 0 then 0 else xs.sum / xs.length

/-- Modelled from the spec: the sample variance underlying the sample
standard deviation of §4.2 (squared deviations from the mean, divided by
`n - 1`), defined as 0 when `n ≤ 1`. -/
def sampleVariance (xs : List ℚ) : ℚ :=
  if xs.length ≤ 1 then 0
  else ((xs.map (fun x => (x - scoreMean xs) ^ 2)).sum) / (xs.length - 1)

/-- Modelled from the spec: the standard error of §4.2, "sample standard
deviation / sqrt(n); defined as 0 when n ≤ 1". -/
noncomputable def stdError (xs : List ℚ) : ℝ :=
  if xs.length ≤ 1 then 0
  else Real.sqrt (sampleVariance xs) / Real.sqrt (xs.length)

/-- Scores of one metric across the raw per-iteration records, in
iteration order. -/
def metricScores (raw : List Scores) (name : String) : List ℚ :=
  raw.filterMap (fun record => dictGet record name)

/-- Modelled from the spec: the `total` mapping of the aggregated result —
for each configured metric, its mean under the metric's name and its
standard error under the key `<name>_se` (spec §3, §4.2 and the worked
example of §8). -/
noncomputable def aggTotal (names : List String) (raw : List Scores) :
    List (String × ℝ) :=
  (names.map (fun name =>
    [(name, (scoreMean (metricScores raw name) : ℝ)),
     (name ++ "_se", stdError (metricScores raw name))])).flatten

/-- The aggregated result `{"raw": ..., "total": ...}` of spec §3. -/
structure AggResult where
  raw : List Scores
  total : List (String × ℝ)

/-- Modelled from the spec: `log_scores` of the `scoring` module (absent
from the sources at hand) — preserve the raw per-iteration records
unmodified and pair them with the aggregate `total` over the configured
metrics (spec §4.2; the pre-rendered text-summary mode and the carbon
metrics appended under `track_carbon_emissions` are outside this model). -/
noncomputable def logScores (metricConfigs : List MetricConfig)
    (scores : List Scores) : AggResult :=
  ⟨scores, aggTotal (metricConfigs.map (fun m => m.name)) scores⟩

/-- Whether an iteration terminated on a failing exit path (anything other
than returning a score dict). -/
def IterOutcome.isFailing : IterOutcome → Bool
  | .success _ => false
  | .failure _ => true
  | .raised _ => true

/-- Statement of the resource-release claim over the pytorch/jax
single-iteration runner: every failing exit releases the in-memory model
(`del model` / `del model_dict` / `clear_memory()`) before surfacing the
failure. -/
def releasedOnEveryFailingExit : Prop :=
  ∀ (tc : TaskConfig) (fw : String) (idx : Nat) (eff : IterEffects),
    (singleIterationPytorch tc fw idx eff).outcome.isFailing = true →
    (singleIterationPytorch tc fw idx eff).modelReleased = true

/-- Statement of the label-mapping claim: every label name and every
synonym is assigned the index of its owning label by `label2id`. -/
def label2idCorrect (cfg : DatasetConfig) : Prop :=
  ∀ p ∈ cfg.task.labels.enum, ∀ syn ∈ p.2.name :: p.2.synonyms,
    cfg.label2id syn = some p.1

/-- No label name or synonym is shared between two distinct labels (a
label may still repeat a key among its own name and synonyms). -/
def noSharedKeysBetweenLabels (labels : List Label) : Prop :=
  ∀ p ∈ labels.enum, ∀ q ∈ labels.enum, p.1 ≠ q.1 →
    ∀ syn ∈ p.2.name :: p.2.synonyms, syn ∉ q.2.name :: q.2.synonyms

/-- Metric configuration of the macro-F1 metric of the sentiment task
(names as in `tests/test_evaluator.py`). -/
def macroF1Cfg : MetricConfig :=
  ⟨"macro_f1", "Macro-average F1-score", "f1", "f1"⟩

/-- Metric configuration of the Matthews-correlation metric of the
sentiment task (names as in `tests/test_evaluator.py`). -/
def mccCfg : MetricConfig :=
  ⟨"mcc", "Matthews Correlation Coefficient", "matthews_correlation",
    "matthews_correlation"⟩

/-- Score record of the worked example of spec §8: both metrics scored on
one iteration. -/
def exampleScores : Scores := [("macro_f1", 1 / 3), ("mcc", -(1 / 3))]

/-- Concrete sentiment-style task configuration used by the witnesses. -/
def tcSent : TaskConfig :=
  ⟨"sent", "dataset-id", none, "sequence-classification", [macroF1Cfg, mccCfg],
    [⟨"positive", ["pos"]⟩, ⟨"negative", ["neg"]⟩], ["text"], "label", "test"⟩

/-- Task configuration naming a feature column the witness dataset lacks. -/
def tcBadColumn : TaskConfig :=
  ⟨"sent", "dataset-id", none, "sequence-classification", [macroF1Cfg, mccCfg],
    [⟨"positive", ["pos"]⟩, ⟨"negative", ["neg"]⟩], ["tokens"], "label", "test"⟩

/-- Concrete evaluation configuration in testing mode, used by the
witnesses. -/
def ecfgTesting : EvaluationConfig :=
  ⟨false, ".aiai_cache", .inl false, false, false, false, true⟩

/-- Concrete two-record dataset used by the witnesses. -/
def dsTwo : Dataset :=
  ⟨["text", "label"],
    [[("text", "god film"), ("label", "positive")],
     [("text", "elendig"), ("label", "negative")]]⟩

/-- Concrete four-record dataset used by the truncation witness. -/
def dsFour : Dataset :=
  ⟨["text"], [[("text", "a")], [("text", "b")], [("text", "c")], [("text", "d")]]⟩

/-- Identity preprocessing oracle for the witnesses. -/
def preIdentity : Dataset → Except PyErr Dataset := fun d => .ok d

/-- Per-iteration score records produced by the all-success witness
oracle. -/
def witnessScore (i : Nat) : Scores := [("macro_f1", (i : ℚ) / 10)]

/-- Single-iteration oracle where every iteration succeeds. -/
def witnessSingleOk : Nat → IterResult :=
  fun i => ⟨.success (witnessScore i), false⟩

/-- Single-iteration oracle where iteration 0 succeeds and every later
iteration returns a caught transient error value. -/
def witnessSingleFail : Nat → IterResult :=
  fun i =>
    if i = 0 then ⟨.success (witnessScore 0), false⟩
    else ⟨.failure (.runtimeError "shape mismatch"), true⟩

/-- Iteration effects where inference and preparation succeed but the
trained-for-task check rejects the predictions. -/
def effsUntrained : Nat → IterEffects :=
  fun _ =>
    ⟨.ok [0, 1], .ok [([0, 1], [1, 1])], false, fun _ _ => .ok (some (1 / 3))⟩

/-- Iteration effects where everything succeeds. -/
def effsOk : Nat → IterEffects :=
  fun _ =>
    ⟨.ok [0, 1], .ok [([0, 1], [1, 1])], true, fun _ _ => .ok (some (1 / 3))⟩

/-- Iteration effects whose inference raises a `RuntimeError` mentioning
the MPS fallback environment variable. -/
def effsMps : IterEffects :=
  ⟨.error (.runtimeError
      "The operator aten::foo is not implemented for MPS; set PYTORCH_ENABLE_MPS_FALLBACK=1"),
    .ok [], true, fun _ _ => .ok none⟩

/-- Iteration effects whose inference raises an ordinary transient
`RuntimeError`. -/
def effsBoom : IterEffects :=
  ⟨.error (.runtimeError "The size of tensor a (3) must match the size of tensor b (4)"),
    .ok [], true, fun _ _ => .ok none⟩

/-- Dataset configuration in which the two labels share the synonym
`"pos"`. -/
def collidingConfig : DatasetConfig :=
  ⟨"sent", "Sentiment", "dataset-id",
    ⟨"sent", "sequence-classification", [macroF1Cfg, mccCfg],
      [⟨"positive", ["pos"]⟩, ⟨"negative", ["pos"]⟩]⟩⟩

/-- Dataset configuration whose label names and synonyms are pairwise
distinct. -/
def cleanConfig : DatasetConfig :=
  ⟨"sent", "Sentiment", "dataset-id",
    ⟨"sent", "sequence-classification", [macroF1Cfg, mccCfg],
      [⟨"positive", ["pos"]⟩, ⟨"negative", ["neg"]⟩]⟩⟩

/-- When every index in the list yields a successful iteration, the loop
visits every index and collects the score records in order. -/
theorem iterationLoop_all_success (single : Nat → IterResult) (sc : Nat → Scores) :
    ∀ idxs : List Nat, (∀ i ∈ idxs, (single i).outcome = .success (sc i)) →
      iterationLoop single idxs = (idxs, .ok (idxs.map sc)) := by
  intro idxs
  induction idxs with
  | nil => intro _; rfl
  | cons i rest ih =>
    intro h
    have hi := h i (List.mem_cons_self i rest)
    have hrest := ih (fun j hj => h j (List.mem_cons_of_mem i hj))
    simp [iterationLoop, hi, hrest]

/-- When every index before `j` succeeds and `j`'s iteration returns an
exception value, the loop stops at `j` with `InvalidEvaluation` and never
reaches the indices after `j`. -/
theorem iterationLoop_stops_at_failure (single : Nat → IterResult) (sc : Nat → Scores)
    (j : Nat) (post : List Nat) (e : PyErr)
    (hfail : (single j).outcome = .failure e) :
    ∀ pre : List Nat, (∀ i ∈ pre, (single i).outcome = .success (sc i)) →
      iterationLoop single (pre ++ j :: post) =
        (pre ++ [j], .error (.invalidEvaluation (invalidEvalMsg j e))) := by
  intro pre
  induction pre with
  | nil => intro _; simp [iterationLoop, hfail]
  | cons i rest ih =>
    intro h
    have hi := h i (List.mem_cons_self i rest)
    have hrest := ih (fun k hk => h k (List.mem_cons_of_mem i hk))
    simp [iterationLoop, hi, hrest]

/-- When every index before `j` succeeds and `j`'s iteration raises, the
loop stops at `j` re-raising that exception and never reaches the indices
after `j`. -/
theorem iterationLoop_stops_at_raised (single : Nat → IterResult) (sc : Nat → Scores)
    (j : Nat) (post : List Nat) (e : PyErr)
    (hraise : (single j).outcome = .raised e) :
    ∀ pre : List Nat, (∀ i ∈ pre, (single i).outcome = .success (sc i)) →
      iterationLoop single (pre ++ j :: post) = (pre ++ [j], .error e) := by
  intro pre
  induction pre with
  | nil => intro _; simp [iterationLoop, hraise]
  | cons i rest ih =>
    intro h
    have hi := h i (List.mem_cons_self i rest)
    have hrest := ih (fun k hk => h k (List.mem_cons_of_mem i hk))
    simp [iterationLoop, hi, hrest]

/-- Splitting of `range n` at an index `j < n`. -/
theorem range_split (n j : Nat) (hj : j < n) :
    List.range n = List.range j ++ j :: List.range' (j + 1) (n - j - 1) := by
  have h1 : List.range' 0 j 1 ++ List.range' (0 + 1 * j) (n - j) 1 =
      List.range' 0 (n - j + j) 1 := List.range'_append 0 j (n - j) 1
  have hn : n - j + j = n := Nat.sub_add_cancel (Nat.le_of_lt hj)
  have h2 : n - j = (n - j - 1) + 1 := by omega
  rw [hn] at h1
  rw [List.range_eq_range', ← h1, h2, List.range'_succ]
  simp [List.range_eq_range']

/-- C1: for every successful evaluation requesting `n` bootstrap
iterations, the outer loop of `Task._evaluate_pytorch_jax` /
`Task._evaluate_spacy` runs the iterations `0, …, n-1` in order and the
score-record list passed on to aggregation (the aggregated "raw" list,
preserved unmodified by `log_scores`) has exactly `n` entries, one per
iteration, in iteration order. -/
theorem raw_list_has_one_entry_per_iteration (single : Nat → IterResult)
    (sc : Nat → Scores) (mcfgs : List MetricConfig) (n : Nat)
    (h : ∀ i, i < n → (single i).outcome = .success (sc i)) :
    iterationLoop single (List.range n) =
      (List.range n, .ok ((List.range n).map sc)) ∧
    ((List.range n).map sc).length = n ∧
    (logScores mcfgs ((List.range n).map sc)).raw = (List.range n).map sc := by
  refine ⟨?_, by simp, rfl⟩
  exact iterationLoop_all_success single sc (List.range n)
    (fun i hi => h i (List.mem_range.mp hi))

/-- Witness for C1 at `n = 2`. -/
theorem raw_list_has_one_entry_per_iteration_witness :
    iterationLoop witnessSingleOk (List.range 2) =
      (List.range 2, .ok ((List.range 2).map witnessScore)) ∧
    ((List.range 2).map witnessScore).length = 2 ∧
    (logScores [macroF1Cfg, mccCfg] ((List.range 2).map witnessScore)).raw =
      (List.range 2).map witnessScore :=
  raw_list_has_one_entry_per_iteration witnessSingleOk witnessScore
    [macroF1Cfg, mccCfg] 2 (fun _ _ => rfl)

/-- C2: when iteration `j` returns a non-success result (an exception
value rather than a score dict) and all earlier iterations succeeded, the
outer loop raises a fatal `InvalidEvaluation` at once: the trace of
executed iterations is exactly `0, …, j` — the failed iteration `j` runs
exactly once (never re-run, despite the `while True` around the call) and
no iteration after `j` runs. -/
theorem failed_iteration_is_fatal_not_retried (single : Nat → IterResult)
    (sc : Nat → Scores) (n j : Nat) (e : PyErr) (hj : j < n)
    (hpre : ∀ i, i < j → (single i).outcome = .success (sc i))
    (hfail : (single j).outcome = .failure e) :
    iterationLoop single (List.range n) =
      (List.range (j + 1), .error (.invalidEvaluation (invalidEvalMsg j e))) ∧
    (List.range (j + 1)).count j = 1 ∧
    (∀ k ∈ List.range (j + 1), k ≤ j) := by
  refine ⟨?_, List.count_eq_one_of_mem (List.nodup_range _)
      (List.mem_range.mpr (Nat.lt_succ_self j)),
    fun k hk => Nat.lt_succ_iff.mp (List.mem_range.mp hk)⟩
  rw [range_split n j hj,
    iterationLoop_stops_at_failure single sc j _ e hfail (List.range j)
      (fun i hi => hpre i (List.mem_range.mp hi)),
    List.range_succ]

/-- Witness for C2 at `n = 3`, `j = 1`. -/
theorem failed_iteration_is_fatal_not_retried_witness :
    iterationLoop witnessSingleFail (List.range 3) =
      (List.range 2,
        .error (.invalidEvaluation (invalidEvalMsg 1 (.runtimeError "shape mismatch")))) ∧
    (List.range 2).count 1 = 1 ∧
    (∀ k ∈ List.range 2, k ≤ 1) :=
  failed_iteration_is_fatal_not_retried witnessSingleFail witnessScore 3 1
    (.runtimeError "shape mismatch") (by omega)
    (by intro i hi; have h0 : i = 0 := Nat.lt_one_iff.mp hi; subst h0; rfl) rfl

/-- On iteration 0, when inference and preparation succeed but the
trained-for-task check rejects, the pytorch/jax try body raises
`ModelNotTrainedForTask`. -/
theorem tryBodyPytorch_untrained (tc : TaskConfig) (fw : String)
    (eff : IterEffects) (preds : List Int) (pairs : List PredLabelPair)
    (hinf : eff.inference = .ok preds) (hprep : eff.prepared = .ok pairs)
    (htr : eff.trained = false) :
    iterTryBodyPytorch tc fw 0 eff = .error (.modelNotTrainedForTask tc.name fw) := by
  simp [iterTryBodyPytorch, hinf, hprep, htr, Bind.bind, Except.bind, throw,
    throwThe, MonadExceptOf.throw]

/-- On iteration 0, when inference succeeds but the trained-for-task check
rejects, the spacy try body raises `ModelNotTrainedForTask`. -/
theorem tryBodySpacy_untrained (tc : TaskConfig) (fw : String)
    (eff : IterEffects) (preds : List Int)
    (hinf : eff.inference = .ok preds) (htr : eff.trained = false) :
    iterTryBodySpacy tc fw 0 eff = .error (.modelNotTrainedForTask tc.name fw) := by
  simp [iterTryBodySpacy, hinf, htr, Bind.bind, Except.bind, throw,
    throwThe, MonadExceptOf.throw]

/-- C3: on iteration 0 only, the trained-for-task check is applied; when it
returns false, `ModelNotTrainedForTask` is raised and — not being an
instance of the caught transient classes — escapes the iteration's
handler, so the whole evaluation aborts with that error after running
only iteration 0: iteration 1 never runs.  This holds on both the
pytorch/jax and the spacy paths. -/
theorem first_iteration_trained_check_aborts (tc : TaskConfig) (fw : String)
    (effs : Nat → IterEffects) (preds : List Int) (pairs : List PredLabelPair)
    (n : Nat) (hn : 2 ≤ n)
    (hinf : (effs 0).inference = .ok preds)
    (hprep : (effs 0).prepared = .ok pairs)
    (htr : (effs 0).trained = false) :
    (singleIterationPytorch tc fw 0 (effs 0)).outcome
        = .raised (.modelNotTrainedForTask tc.name fw) ∧
    (PyErr.modelNotTrainedForTask tc.name fw).isTransient = false ∧
    iterationLoop (fun i => singleIterationPytorch tc fw i (effs i)) (List.range n)
        = ([0], .error (.modelNotTrainedForTask tc.name fw)) ∧
    (singleIterationSpacy tc fw 0 (effs 0)).outcome
        = .raised (.modelNotTrainedForTask tc.name fw) ∧
    iterationLoop (fun i => singleIterationSpacy tc fw i (effs i)) (List.range n)
        = ([0], .error (.modelNotTrainedForTask tc.name fw)) := by
  have hbodyP := tryBodyPytorch_untrained tc fw (effs 0) preds pairs hinf hprep htr
  have hbodyS := tryBodySpacy_untrained tc fw (effs 0) preds hinf htr
  have hsingleP : (singleIterationPytorch tc fw 0 (effs 0)).outcome
      = .raised (.modelNotTrainedForTask tc.name fw) := by
    simp [singleIterationPytorch, hbodyP, handleIteration, PyErr.isTransient]
  have hsingleS : (singleIterationSpacy tc fw 0 (effs 0)).outcome
      = .raised (.modelNotTrainedForTask tc.name fw) := by
    simp [singleIterationSpacy, hbodyS, handleIteration, PyErr.isTransient]
  refine ⟨hsingleP, rfl, ?_, hsingleS, ?_⟩
  · rw [range_split n 0 (by omega)]
    have := iterationLoop_stops_at_raised
      (fun i => singleIterationPytorch tc fw i (effs i)) (fun _ => [])
      0 (List.range' 1 (n - 0 - 1)) (.modelNotTrainedForTask tc.name fw)
      hsingleP (List.range 0) (by simp)
    simpa using this
  · rw [range_split n 0 (by omega)]
    have := iterationLoop_stops_at_raised
      (fun i => singleIterationSpacy tc fw i (effs i)) (fun _ => [])
      0 (List.range' 1 (n - 0 - 1)) (.modelNotTrainedForTask tc.name fw)
      hsingleS (List.range 0) (by simp)
    simpa using this

/-- Witness for C3 at `n = 2` with concrete effects. -/
theorem first_iteration_trained_check_aborts_witness :
    (singleIterationPytorch tcSent "pytorch" 0 (effsUntrained 0)).outcome
        = .raised (.modelNotTrainedForTask tcSent.name "pytorch") ∧
    (PyErr.modelNotTrainedForTask tcSent.name "pytorch").isTransient = false ∧
    iterationLoop (fun i => singleIterationPytorch tcSent "pytorch" i (effsUntrained i))
        (List.range 2)
        = ([0], .error (.modelNotTrainedForTask tcSent.name "pytorch")) ∧
    (singleIterationSpacy tcSent "pytorch" 0 (effsUntrained 0)).outcome
        = .raised (.modelNotTrainedForTask tcSent.name "pytorch") ∧
    iterationLoop (fun i => singleIterationSpacy tcSent "pytorch" i (effsUntrained i))
        (List.range 2)
        = ([0], .error (.modelNotTrainedForTask tcSent.name "pytorch")) :=
  first_iteration_trained_check_aborts tcSent "pytorch" effsUntrained [0, 1]
    [([0, 1], [1, 1])] 2 (by omega) rfl rfl rfl

/-- Flattening `k` copies of a singleton list yields `k` copies of its
element (Python `[p] * k`). -/
theorem flatten_replicate_singleton {α : Type} (k : Nat) (a : α) :
    (List.replicate k [a]).flatten = List.replicate k a := by
  induction k with
  | zero => rfl
  | succ m ih => simp [List.replicate_succ, ih]

/-- Zipping a list with `length`-many copies of one element pairs every
entry with that element. -/
theorem zip_replicate_length {α β : Type} (l : List α) (b : β) :
    l.zip (List.replicate l.length b) = l.map (fun a => (a, b)) := by
  induction l with
  | nil => rfl
  | cons x rest ih => simp [List.replicate_succ, ih]

/-- C7: when the prepared predictions-and-labels list holds exactly one
pair and `k > 1` metrics are configured, the replication step turns it
into exactly `k` identical copies of that pair, so that the zip inside
`_compute_metrics` hands metric `i` pair `i` (here: every metric gets the
one pair); lists of any length other than 1 pass through unchanged. -/
theorem singleton_pair_replication (p : PredLabelPair)
    (metrics : List MetricConfig) (pairs : List PredLabelPair) (k : Nat)
    (hk : 1 < k) (hm : 1 < metrics.length) (hlen : pairs.length ≠ 1) :
    replicatePairs [p] k = List.replicate k p ∧
    metrics.zip (replicatePairs [p] metrics.length)
        = metrics.map (fun m => (m, p)) ∧
    replicatePairs pairs k = pairs := by
  refine ⟨?_, ?_, ?_⟩
  · rw [replicatePairs, if_pos ⟨rfl, hk⟩, flatten_replicate_singleton]
  · rw [replicatePairs, if_pos ⟨rfl, hm⟩, flatten_replicate_singleton,
      zip_replicate_length]
  · rw [replicatePairs, if_neg]
    intro h
    exact hlen h.1

/-- Witness for C7 with two metrics and an empty pass-through list. -/
theorem singleton_pair_replication_witness :
    replicatePairs [([0, 1], [1, 1])] 2 = List.replicate 2 ([0, 1], [1, 1]) ∧
    [macroF1Cfg, mccCfg].zip
        (replicatePairs [([0, 1], [1, 1])] [macroF1Cfg, mccCfg].length)
        = [macroF1Cfg, mccCfg].map (fun m => (m, ([0, 1], [1, 1]))) ∧
    replicatePairs ([] : List PredLabelPair) 2 = [] :=
  singleton_pair_replication ([0, 1], [1, 1]) [macroF1Cfg, mccCfg] [] 2
    (by omega) (by simp) (by simp)

/-- C8 counterexample: on the failing exit path where the caught error's
message mentions `PYTORCH_ENABLE_MPS_FALLBACK`, the handler raises
`MPSFallbackNotEnabled` before the `del model` / `del model_dict` /
`clear_memory()` lines, so the model is not released there — refuting the
claim that every failing exit path releases the model. -/
theorem mps_path_skips_model_release : ¬ releasedOnEveryFailingExit := by
  intro h
  have heval : singleIterationPytorch tcSent "pytorch" 1 effsMps
      = ⟨.raised .mpsFallbackNotEnabled, false⟩ := by decide
  have hrel := h tcSent "pytorch" 1 effsMps (by rw [heval]; rfl)
  rw [heval] at hrel
  exact Bool.false_ne_true hrel

/-- C8 (amended): a caught transient error whose message does not mention
the MPS fallback is returned to the caller only after the model and model
dictionary are deleted and memory is cleared; but when the message does
mention the MPS fallback, `MPSFallbackNotEnabled` is raised immediately,
before that release, and non-transient exceptions propagate out of the
handler with no release either. -/
theorem model_release_on_caught_transient_errors (tc : TaskConfig)
    (fw : String) (idx : Nat) (eff : IterEffects) (e : PyErr)
    (hbody : iterTryBodyPytorch tc fw idx eff = .error e) :
    (e.isTransient = true →
      strContains e.str "PYTORCH_ENABLE_MPS_FALLBACK" = false →
      singleIterationPytorch tc fw idx eff = ⟨.failure e, true⟩) ∧
    (e.isTransient = true →
      strContains e.str "PYTORCH_ENABLE_MPS_FALLBACK" = true →
      singleIterationPytorch tc fw idx eff
        = ⟨.raised .mpsFallbackNotEnabled, false⟩) ∧
    (e.isTransient = false →
      singleIterationPytorch tc fw idx eff = ⟨.raised e, false⟩) := by
  unfold singleIterationPytorch
  rw [hbody]
  refine ⟨fun ht hmps => ?_, fun ht hmps => ?_, fun ht => ?_⟩
  · simp [handleIteration, ht, hmps]
  · simp [handleIteration, ht, hmps]
  · simp [handleIteration, ht]

/-- Witness for C8 (amended) on an ordinary transient tensor-shape
error. -/
theorem model_release_on_caught_transient_errors_witness :
    ((PyErr.runtimeError
        "The size of tensor a (3) must match the size of tensor b (4)").isTransient = true →
      strContains (PyErr.runtimeError
        "The size of tensor a (3) must match the size of tensor b (4)").str
        "PYTORCH_ENABLE_MPS_FALLBACK" = false →
      singleIterationPytorch tcSent "pytorch" 1 effsBoom
        = ⟨.failure (.runtimeError
            "The size of tensor a (3) must match the size of tensor b (4)"), true⟩) ∧
    ((PyErr.runtimeError
        "The size of tensor a (3) must match the size of tensor b (4)").isTransient = true →
      strContains (PyErr.runtimeError
        "The size of tensor a (3) must match the size of tensor b (4)").str
        "PYTORCH_ENABLE_MPS_FALLBACK" = true →
      singleIterationPytorch tcSent "pytorch" 1 effsBoom
        = ⟨.raised .mpsFallbackNotEnabled, false⟩) ∧
    ((PyErr.runtimeError
        "The size of tensor a (3) must match the size of tensor b (4)").isTransient = false →
      singleIterationPytorch tcSent "pytorch" 1 effsBoom
        = ⟨.raised (.runtimeError
            "The size of tensor a (3) must match the size of tensor b (4)"), false⟩) :=
  model_release_on_caught_transient_errors tcSent "pytorch" 1 effsBoom
    (.runtimeError "The size of tensor a (3) must match the size of tensor b (4)") rfl

/-- C9 counterexample: in a dataset configuration where two labels share
the synonym `"pos"`, the dict comprehension lets the later label
overwrite the earlier one, so the synonym `"pos"` of label 0 is assigned
index 1 — the claim fails on this configuration. -/
theorem label2id_collision : ¬ label2idCorrect collidingConfig := by
  intro h
  exact absurd
    (h (0, ⟨"positive", ["pos"]⟩) (by decide) "pos" (by decide))
    (by decide)

/-- When an association list holds an entry with key `k` and every entry
carrying key `k` has value `i`, looking `k` up returns `i`. -/
theorem find?_key_of_unique_value (l : List (String × Nat)) (k : String)
    (i : Nat) (hmem : (k, i) ∈ l) (huniq : ∀ j, (k, j) ∈ l → j = i) :
    (l.find? (fun q => q.1 == k)).map Prod.snd = some i := by
  have hsome : (l.find? (fun q => q.1 == k)).isSome = true :=
    List.find?_isSome.mpr ⟨(k, i), hmem, by simp⟩
  obtain ⟨q, hq⟩ := Option.isSome_iff_exists.mp hsome
  have hqk : q.1 = k := by simpa using List.find?_some hq
  have hql : (k, q.2) ∈ l := by
    rw [← hqk]
    exact List.mem_of_find?_eq_some hq
  have hqi : q.2 = i := huniq q.2 hql
  rw [hq]
  simp [hqi]

/-- Every entry of the comprehension's entry list stems from an
enumerated label: its value is that label's index and its key one of that
label's name or synonyms. -/
theorem mem_label2idEntries (labels : List Label) (syn : String) (j : Nat)
    (h : (syn, j) ∈ label2idEntries labels) :
    ∃ q ∈ labels.enum, q.1 = j ∧ syn ∈ q.2.name :: q.2.synonyms := by
  rw [label2idEntries, List.mem_flatten] at h
  obtain ⟨inner, hinner, hmem⟩ := h
  obtain ⟨q, hq, hinner'⟩ := List.mem_map.mp hinner
  subst hinner'
  obtain ⟨syn', hsyn', heq⟩ := List.mem_map.mp hmem
  injection heq with h1 h2
  subst h1
  subst h2
  exact ⟨q, hq, rfl, hsyn'⟩

/-- Every label name and synonym contributes its entry to the
comprehension's entry list. -/
theorem entry_mem_label2idEntries (labels : List Label) (p : Nat × Label)
    (syn : String) (hp : p ∈ labels.enum) (hsyn : syn ∈ p.2.name :: p.2.synonyms) :
    (syn, p.1) ∈ label2idEntries labels := by
  rw [label2idEntries, List.mem_flatten]
  exact ⟨(p.2.name :: p.2.synonyms).map (fun s => (s, p.1)),
    List.mem_map_of_mem _ hp, List.mem_map_of_mem _ hsyn⟩

/-- C9 (amended): the label-to-id mapping assigns an id to every label's
name and every synonym — unconditionally, collisions included — and
provided no name or synonym is shared between two distinct labels, each
name and synonym is mapped to the index of its owning label (a label
repeating a key among its own name and synonyms is harmless, since all
its entries carry the same index). -/
theorem label2id_covers_and_maps_to_owner (cfg : DatasetConfig) :
    (∀ p ∈ cfg.task.labels.enum, ∀ syn ∈ p.2.name :: p.2.synonyms,
        (cfg.label2id syn).isSome = true) ∧
    (noSharedKeysBetweenLabels cfg.task.labels → label2idCorrect cfg) := by
  constructor
  · intro p hp syn hsyn
    have hmem : (syn, p.1) ∈ (label2idEntries cfg.task.labels).reverse :=
      List.mem_reverse.mpr (entry_mem_label2idEntries cfg.task.labels p syn hp hsyn)
    rw [DatasetConfig.label2id, dictLookupLast]
    have hsome : (((label2idEntries cfg.task.labels).reverse).find?
        (fun q => q.1 == syn)).isSome = true :=
      List.find?_isSome.mpr ⟨(syn, p.1), hmem, by simp⟩
    obtain ⟨q, hq⟩ := Option.isSome_iff_exists.mp hsome
    rw [hq]
    rfl
  · intro hshared p hp syn hsyn
    have hmem : (syn, p.1) ∈ (label2idEntries cfg.task.labels).reverse :=
      List.mem_reverse.mpr (entry_mem_label2idEntries cfg.task.labels p syn hp hsyn)
    have huniq : ∀ j, (syn, j) ∈ (label2idEntries cfg.task.labels).reverse →
        j = p.1 := by
      intro j hj
      rw [List.mem_reverse] at hj
      obtain ⟨q, hq, hqj, hqsyn⟩ := mem_label2idEntries cfg.task.labels syn j hj
      by_cases hpq : p.1 = q.1
      · omega
      · exact absurd hqsyn (hshared p hp q hq hpq syn hsyn)
    rw [DatasetConfig.label2id, dictLookupLast]
    exact find?_key_of_unique_value _ syn p.1 hmem huniq

/-- Witness for C9 (amended) on a configuration sharing no key between
labels. -/
theorem label2id_covers_and_maps_to_owner_witness :
    label2idCorrect cleanConfig :=
  (label2id_covers_and_maps_to_owner cleanConfig).2 (by
    intro p hp q hq hpq syn hsyn
    fin_cases hp <;> fin_cases hq <;> simp_all <;>
      rcases hsyn with rfl | rfl <;> simp)

/-- Unfolding equation of `Generator.integers` at a successor size. -/
theorem integers_succ (g : Generator) (lo hi m : Nat) :
    g.integers lo hi (m + 1) =
      ((lo + g.next.1 % (hi - lo)) :: (g.next.2.integers lo hi m).1,
        (g.next.2.integers lo hi m).2) := rfl

set_option maxRecDepth 4000 in
/-- The draw `rng.integers(0, hi, size)` yields exactly `size` indices,
all below `hi` (whenever `hi` is positive). -/
theorem integers_length_and_range (hi : Nat) :
    ∀ (size : Nat) (g : Generator),
      (g.integers 0 hi size).1.length = size ∧
      ∀ v ∈ (g.integers 0 hi size).1, 0 < hi → v < hi := by
  intro size
  induction size with
  | zero => intro g; exact ⟨rfl, by intro v hv; cases hv⟩
  | succ m ih =>
    intro g
    obtain ⟨ihlen, ihmem⟩ := ih g.next.2
    rw [integers_succ]
    constructor
    · simpa using ihlen
    · intro v hv hpos
      rw [List.mem_cons] at hv
      rcases hv with heq | hrest
      · have hmod : g.next.1 % (hi - 0) < hi - 0 :=
          Nat.mod_lt _ (by omega)
        omega
      · exact ihmem v hrest hpos

/-- Unfolding equation of `bootstrapIndexLists` at a successor count. -/
theorem bootstrapIndexLists_succ (g : Generator) (len m : Nat) :
    bootstrapIndexLists g len (m + 1) =
      ((g.integers 0 len len).1
          :: (bootstrapIndexLists (g.integers 0 len len).2 len m).1,
        (bootstrapIndexLists (g.integers 0 len len).2 len m).2) := rfl

/-- Across the bootstrap list comprehension, there is one index array per
iteration, each of the base dataset's length and drawn from `[0, len)`. -/
theorem bootstrapIndexLists_spec (len : Nat) :
    ∀ (n : Nat) (g : Generator),
      (bootstrapIndexLists g len n).1.length = n ∧
      ∀ l ∈ (bootstrapIndexLists g len n).1,
        l.length = len ∧ ∀ i ∈ l, 0 < len → i < len := by
  intro n
  induction n with
  | zero => intro g; exact ⟨rfl, by intro l hl; cases hl⟩
  | succ m ih =>
    intro g
    obtain ⟨hlen, hmem⟩ := ih (g.integers 0 len len).2
    rw [bootstrapIndexLists_succ]
    constructor
    · simpa using hlen
    · intro l hl
      rcases List.mem_cons.mp hl with heq | hrest
      · subst heq
        obtain ⟨h1, h2⟩ := integers_length_and_range len len g
        exact ⟨h1, fun i hi hpos => h2 i hi hpos⟩
      · exact hmem l hrest

/-- C5: bootstrap resampling is deterministic in the seed — generators in
equal states draw the identical sequence of index arrays (and hence
identical resampled datasets) — and for each of the `n` iterations the
draw consists of `len(dataset)` indices, each within `[0, len(dataset))`. -/
theorem bootstrap_resampling_deterministic (g₁ g₂ : Generator) (ds : Dataset)
    (n : Nat) (hstate : g₁.state = g₂.state) (hlen : 0 < ds.rows.length) :
    bootstrapIndexLists g₁ ds.rows.length n
        = bootstrapIndexLists g₂ ds.rows.length n ∧
    bootstrappedDatasets ds g₁ n = bootstrappedDatasets ds g₂ n ∧
    (bootstrapIndexLists g₁ ds.rows.length n).1.length = n ∧
    ∀ l ∈ (bootstrapIndexLists g₁ ds.rows.length n).1,
      l.length = ds.rows.length ∧ ∀ i ∈ l, i < ds.rows.length := by
  have hg : g₁ = g₂ := by
    cases g₁
    cases g₂
    simpa using hstate
  subst hg
  obtain ⟨hlen', hmem⟩ := bootstrapIndexLists_spec ds.rows.length n g₁
  exact ⟨rfl, rfl, hlen',
    fun l hl => ⟨(hmem l hl).1, fun i hi => (hmem l hl).2 i hi hlen⟩⟩

/-- Witness for C5 on a two-record dataset with seed 7. -/
theorem bootstrap_resampling_deterministic_witness :
    bootstrapIndexLists ⟨7⟩ dsTwo.rows.length 2
        = bootstrapIndexLists ⟨7⟩ dsTwo.rows.length 2 ∧
    bootstrappedDatasets dsTwo ⟨7⟩ 2 = bootstrappedDatasets dsTwo ⟨7⟩ 2 ∧
    (bootstrapIndexLists ⟨7⟩ dsTwo.rows.length 2).1.length = 2 ∧
    ∀ l ∈ (bootstrapIndexLists ⟨7⟩ dsTwo.rows.length 2).1,
      l.length = dsTwo.rows.length ∧ ∀ i ∈ l, i < dsTwo.rows.length :=
  bootstrap_resampling_deterministic ⟨7⟩ ⟨7⟩ dsTwo 2 rfl (by decide)

/-- A successful run of the filtering loop keeps the schema and retains
exactly the records whose value is nonempty in every configured feature
column, in their original order. -/
theorem filterEmptyExamples_ok :
    ∀ (cols : List String) (ds ds1 : Dataset),
      filterEmptyExamples cols ds = .ok ds1 →
      ds1.schema = ds.schema ∧
      ds1.rows = ds.rows.filter
        (fun r => cols.all (fun c => 0 < (recordGet r c).length)) := by
  intro cols
  induction cols with
  | nil =>
    intro ds ds1 hok
    cases hok
    simp
  | cons c rest ih =>
    intro ds ds1 hok
    by_cases hc : c ∈ ds.schema
    · rw [filterEmptyExamples, datasetFilterColumn, if_pos hc] at hok
      obtain ⟨hschema, hrows⟩ := ih _ _ hok
      refine ⟨hschema, ?_⟩
      rw [hrows]
      simp only [List.filter_filter]
      refine List.filter_congr ?_
      intro r _
      simp [Bool.and_comm]
    · rw [filterEmptyExamples, datasetFilterColumn, if_neg hc] at hok
      cases hok

/-- When every column before `col` exists but `col` is absent from the
schema, the filtering loop stops at `col` with
`WrongFeatureColumnName col`. -/
theorem filterEmptyExamples_missing_column (col : String) (post : List String) :
    ∀ (pre : List String) (ds : Dataset),
      (∀ c ∈ pre, c ∈ ds.schema) → col ∉ ds.schema →
      filterEmptyExamples (pre ++ col :: post) ds
        = .error (.wrongFeatureColumnName col) := by
  intro pre
  induction pre with
  | nil =>
    intro ds _ hcol
    rw [List.nil_append, filterEmptyExamples, datasetFilterColumn, if_neg hcol]
  | cons c rest ih =>
    intro ds hpre hcol
    have hc : c ∈ ds.schema := hpre c (List.mem_cons_self c rest)
    rw [List.cons_append, filterEmptyExamples, datasetFilterColumn, if_pos hc]
    exact ih _ (fun c' hc' => hpre c' (List.mem_cons_of_mem c hc')) hcol

/-- C6: records whose value in a configured feature column is empty are
dropped by `Task.evaluate` before any bootstrap iteration — a surviving
record has a nonempty value in every configured feature column — and when
a configured feature column is absent from the dataset schema, the whole
evaluation aborts with `WrongFeatureColumnName` before anything else
happens: no iteration runs (empty trace), no bootstrap dataset is drawn. -/
theorem empty_and_missing_feature_columns (tc : TaskConfig) (ds : Dataset) :
    (∀ ds1, filterEmptyExamples tc.feature_column_names ds = .ok ds1 →
      ds1.schema = ds.schema ∧
      ds1.rows = ds.rows.filter
        (fun r => tc.feature_column_names.all
          (fun c => 0 < (recordGet r c).length))) ∧
    (∀ pre col post, tc.feature_column_names = pre ++ col :: post →
      (∀ c ∈ pre, c ∈ ds.schema) → col ∉ ds.schema →
      ∀ (ecfg : EvaluationConfig) (fw : String) (g : Generator)
        (preFn : Dataset → Except PyErr Dataset) (effs : Nat → IterEffects),
        evaluate ecfg tc fw ds g preFn effs
          = ⟨[], [], .error (.wrongFeatureColumnName col)⟩) := by
  constructor
  · intro ds1 hok
    exact filterEmptyExamples_ok tc.feature_column_names ds ds1 hok
  · intro pre col post hsplit hpre hcol ecfg fw g preFn effs
    have herr := filterEmptyExamples_missing_column col post pre ds hpre hcol
    rw [evaluate, hsplit, herr]

/-- Witness for C6 on a task configuration naming the absent column
`"tokens"`. -/
theorem empty_and_missing_feature_columns_witness :
    evaluate ecfgTesting tcBadColumn "pytorch" dsTwo ⟨7⟩ preIdentity effsOk
      = ⟨[], [], .error (.wrongFeatureColumnName "tokens")⟩ :=
  (empty_and_missing_feature_columns tcBadColumn dsTwo).2 [] "tokens" [] rfl
    (by intro c hc; cases hc) (by decide) ecfgTesting "pytorch" ⟨7⟩
    preIdentity effsOk

/-- An in-range `getD` access returns an element of the list. -/
theorem getD_mem_of_lt {α : Type} (l : List α) (i : Nat) (d : α)
    (h : i < l.length) : l.getD i d ∈ l := by
  rw [List.getD_eq_getElem?_getD, List.getElem?_eq_getElem h]
  exact List.getElem_mem h

/-- First component of `bootstrappedDatasets`. -/
theorem bootstrappedDatasets_fst (ds : Dataset) (g : Generator) (n : Nat) :
    (bootstrappedDatasets ds g n).1
      = ((bootstrapIndexLists g ds.rows.length n).1).map (datasetSelectRows ds) :=
  rfl

/-- The bootstrap comprehension draws one dataset per iteration, each with
the base schema, as many rows as the base dataset, every row being one of
the base rows. -/
theorem bootstrappedDatasets_rows (ds : Dataset) (g : Generator) (n : Nat) :
    (bootstrappedDatasets ds g n).1.length = n ∧
    ∀ b ∈ (bootstrappedDatasets ds g n).1,
      b.schema = ds.schema ∧ b.rows.length = ds.rows.length ∧
      ∀ r ∈ b.rows, r ∈ ds.rows := by
  obtain ⟨hlen, hmem⟩ := bootstrapIndexLists_spec ds.rows.length n g
  rw [bootstrappedDatasets_fst]
  refine ⟨by simpa using hlen, ?_⟩
  intro b hb
  obtain ⟨idxs, hidxs, hsel⟩ := List.mem_map.mp hb
  obtain ⟨hl, hbound⟩ := hmem idxs hidxs
  subst hsel
  refine ⟨rfl, by simp [datasetSelectRows, hl], ?_⟩
  intro r hr
  simp only [datasetSelectRows] at hr
  obtain ⟨i, hi, hget⟩ := List.mem_map.mp hr
  subst hget
  have hpos : 0 < ds.rows.length := by
    rw [← hl]
    exact List.length_pos_of_mem hi
  exact getD_mem_of_lt ds.rows i [] (hbound i hi hpos)

/-- The bootstrapped datasets recorded by `evaluateFramework` are exactly
the ones drawn from the (possibly truncated) base dataset, whatever the
preprocessing outcome. -/
theorem evaluateFramework_bootstrapped (ecfg : EvaluationConfig)
    (ds ds2 : Dataset) (g : Generator) (pre : Dataset → Except PyErr Dataset)
    (single : Nat → IterResult)
    (hsel : (if ecfg.testing then datasetSelectRange4 ds else .ok ds) = .ok ds2) :
    (evaluateFramework ecfg ds g pre single).bootstrapped
      = (bootstrappedDatasets ds2 g (numIter ecfg)).1 := by
  rw [evaluateFramework, hsel]
  cases hpre : preprocessAll pre (bootstrappedDatasets ds2 g (numIter ecfg)).1 with
  | error e => simp [hpre]
  | ok l => simp [hpre]

/-- C10: the number of bootstrap iterations is a fixed constant taken from
the testing flag alone — 2 when testing, 10 otherwise — and in testing
mode the dataset is truncated to its first 4 records before resampling:
every bootstrapped dataset then has exactly 4 rows, all drawn from the
first 4 filtered records (without testing, `len(dataset)` rows drawn from
the whole filtered dataset). -/
theorem fixed_iteration_count_and_testing_truncation
    (ecfg : EvaluationConfig) (tc : TaskConfig) (ds ds1 : Dataset)
    (g : Generator) (preFn : Dataset → Except PyErr Dataset)
    (effs : Nat → IterEffects)
    (hfilter : filterEmptyExamples tc.feature_column_names ds = .ok ds1)
    (htrunc : ecfg.testing = true → 4 ≤ ds1.rows.length) :
    numIter ecfg = (if ecfg.testing then 2 else 10) ∧
    (evaluate ecfg tc "pytorch" ds g preFn effs).bootstrapped.length
      = numIter ecfg ∧
    (ecfg.testing = true →
      ∀ b ∈ (evaluate ecfg tc "pytorch" ds g preFn effs).bootstrapped,
        b.rows.length = 4 ∧ ∀ r ∈ b.rows, r ∈ ds1.rows.take 4) ∧
    (ecfg.testing = false →
      ∀ b ∈ (evaluate ecfg tc "pytorch" ds g preFn effs).bootstrapped,
        b.rows.length = ds1.rows.length ∧ ∀ r ∈ b.rows, r ∈ ds1.rows) := by
  have hev : evaluate ecfg tc "pytorch" ds g preFn effs
      = evaluateFramework ecfg ds1 g preFn
          (fun idx => singleIterationPytorch tc "pytorch" idx (effs idx)) := by
    rw [evaluate, hfilter]
    simp
  refine ⟨by cases h : ecfg.testing <;> simp [numIter, h], ?_, ?_, ?_⟩
  · rw [hev]
    cases h : ecfg.testing with
    | true =>
      have hsel : (if ecfg.testing then datasetSelectRange4 ds1 else .ok ds1)
          = .ok ⟨ds1.schema, ds1.rows.take 4⟩ := by
        rw [h, if_pos rfl, datasetSelectRange4, if_pos (htrunc h)]
      rw [evaluateFramework_bootstrapped ecfg ds1 _ g preFn _ hsel]
      exact (bootstrappedDatasets_rows _ g (numIter ecfg)).1
    | false =>
      have hsel : (if ecfg.testing then datasetSelectRange4 ds1 else .ok ds1)
          = .ok ds1 := by rw [h, if_neg (by simp)]
      rw [evaluateFramework_bootstrapped ecfg ds1 _ g preFn _ hsel]
      exact (bootstrappedDatasets_rows _ g (numIter ecfg)).1
  · intro h
    rw [hev]
    have hsel : (if ecfg.testing then datasetSelectRange4 ds1 else .ok ds1)
        = .ok ⟨ds1.schema, ds1.rows.take 4⟩ := by
      rw [h, if_pos rfl, datasetSelectRange4, if_pos (htrunc h)]
    rw [evaluateFramework_bootstrapped ecfg ds1 _ g preFn _ hsel]
    intro b hb
    obtain ⟨-, hblen, hbrows⟩ :=
      (bootstrappedDatasets_rows ⟨ds1.schema, ds1.rows.take 4⟩ g (numIter ecfg)).2 b hb
    refine ⟨?_, hbrows⟩
    rw [hblen]
    simpa using Nat.min_eq_left (htrunc h)
  · intro h
    rw [hev]
    have hsel : (if ecfg.testing then datasetSelectRange4 ds1 else .ok ds1)
        = .ok ds1 := by rw [h, if_neg (by simp)]
    rw [evaluateFramework_bootstrapped ecfg ds1 _ g preFn _ hsel]
    intro b hb
    obtain ⟨-, hblen, hbrows⟩ :=
      (bootstrappedDatasets_rows ds1 g (numIter ecfg)).2 b hb
    exact ⟨hblen, hbrows⟩

/-- Witness for C10 in testing mode on a four-record dataset. -/
theorem fixed_iteration_count_and_testing_truncation_witness :
    numIter ecfgTesting = (if ecfgTesting.testing then 2 else 10) ∧
    (evaluate ecfgTesting tcSent "pytorch" dsFour ⟨7⟩ preIdentity
        effsOk).bootstrapped.length = numIter ecfgTesting ∧
    (ecfgTesting.testing = true →
      ∀ b ∈ (evaluate ecfgTesting tcSent "pytorch" dsFour ⟨7⟩ preIdentity
          effsOk).bootstrapped,
        b.rows.length = 4 ∧ ∀ r ∈ b.rows, r ∈ dsFour.rows.take 4) ∧
    (ecfgTesting.testing = false →
      ∀ b ∈ (evaluate ecfgTesting tcSent "pytorch" dsFour ⟨7⟩ preIdentity
          effsOk).bootstrapped,
        b.rows.length = dsFour.rows.length ∧ ∀ r ∈ b.rows, r ∈ dsFour.rows) :=
  fixed_iteration_count_and_testing_truncation ecfgTesting tcSent dsFour dsFour
    ⟨7⟩ preIdentity effsOk (by decide) (fun _ => by decide)

/-- The mean of two equal scores is that score. -/
theorem scoreMean_pair (x : ℚ) : scoreMean [x, x] = x := by
  rw [scoreMean, if_neg (by norm_num)]
  norm_num

/-- The sample variance of two equal scores is 0. -/
theorem sampleVariance_pair (x : ℚ) : sampleVariance [x, x] = 0 := by
  rw [sampleVariance, if_neg (by norm_num)]
  rw [scoreMean_pair]
  norm_num

/-- The standard error of two equal scores is 0. -/
theorem stdError_pair (x : ℚ) : stdError [x, x] = 0 := by
  rw [stdError, if_neg (by norm_num), sampleVariance_pair]
  simp

/-- C4: the aggregator's standard error — sample standard deviation over
the per-iteration scores divided by `sqrt(n)` — is exactly 0 whenever
`n ≤ 1`, and for the spec's worked example (metrics `macro_f1`, `mcc`; 2
iterations each scoring `1/3` and `-1/3`) the aggregate total carries the
two means together with standard-error entries `macro_f1_se = 0` and
`mcc_se = 0`, the raw records passing through unmodified. -/
theorem standard_error_zero_cases :
    (∀ xs : List ℚ, xs.length ≤ 1 → stdError xs = 0) ∧
    (∀ x : ℚ, stdError [x, x] = 0) ∧
    (logScores [macroF1Cfg, mccCfg] [exampleScores, exampleScores]).raw
        = [exampleScores, exampleScores] ∧
    dictGet (logScores [macroF1Cfg, mccCfg]
        [exampleScores, exampleScores]).total "macro_f1"
        = some ((1 : ℝ) / 3) ∧
    dictGet (logScores [macroF1Cfg, mccCfg]
        [exampleScores, exampleScores]).total "macro_f1_se" = some 0 ∧
    dictGet (logScores [macroF1Cfg, mccCfg]
        [exampleScores, exampleScores]).total "mcc"
        = some (-((1 : ℝ) / 3)) ∧
    dictGet (logScores [macroF1Cfg, mccCfg]
        [exampleScores, exampleScores]).total "mcc_se" = some 0 := by
  have hms1 : metricScores [exampleScores, exampleScores] "macro_f1"
      = [1 / 3, 1 / 3] := by
    simp [metricScores, exampleScores, dictGet, List.find?]
  have hms2 : metricScores [exampleScores, exampleScores] "mcc"
      = [-(1 / 3), -(1 / 3)] := by
    simp [metricScores, exampleScores, dictGet, List.find?]
  refine ⟨fun xs hxs => by rw [stdError, if_pos hxs], stdError_pair, rfl,
    ?_, ?_, ?_, ?_⟩ <;>
    simp [logScores, aggTotal, macroF1Cfg, mccCfg, dictGet, List.find?,
      hms1, hms2, stdError_pair, scoreMean_pair]

/-- Witness for C4 on a single-iteration score list. -/
theorem standard_error_zero_cases_witness : stdError [(1 : ℚ)] = 0 :=
  standard_error_zero_cases.1 [1] (by norm_num)

end AiaiEval
